import Mathlib

/-!
Verification development for the Spark job submission and tracking hook
(providers/apache/spark/src/airflow/providers/apache/spark/hooks/spark_submit.py).

The Python class SparkSubmitHook is embedded shallowly: each method becomes a
pure Lean function over explicit state; subprocess results, filesystem contents
and base64 decoding become explicit inputs; Python exceptions become Except
values.  Regular-expression searches of the source are translated into
deterministic scanning functions over character lists that implement the
leftmost-match / lazy / greedy semantics of the concrete patterns used.
-/

/-! ## Python string primitives -/

/-- Python whitespace class (ASCII part of str.strip and of the regex class \s). -/
def pyIsSpace (c : Char) : Bool :=
  c == ' ' || c == '\t' || c == '\n' || c == '\r' || c == Char.ofNat 11 || c == Char.ofNat 12

/-- str.strip on a character list. -/
def stripChars (cs : List Char) : List Char :=
  ((cs.dropWhile pyIsSpace).reverse.dropWhile pyIsSpace).reverse

/-- Python str.strip (whitespace from both ends). -/
def pyStrip (s : String) : String :=
  String.mk (stripChars s.data)

/-- Substring occurrence on character lists (Python `needle in hay`). -/
def containsSubChars (needle : List Char) : List Char → Bool
  | [] => needle.isEmpty
  | c :: t => needle.isPrefixOf (c :: t) || containsSubChars needle t

/-- Python `needle in hay` for strings. -/
def containsSub (needle hay : String) : Bool :=
  containsSubChars needle.data hay.data

/-- Worker for str.split with a non-empty separator: scan left to right,
cutting at each non-overlapping occurrence.  Fuel-based structural recursion
(one unit of fuel per consumed character) so the kernel can evaluate it. -/
def pySplitFuel (sep : List Char) : Nat → List Char → List Char → List (List Char)
  | 0, cs, cur => [cur.reverse ++ cs]
  | fuel + 1, cs, cur =>
    match cs with
    | [] => [cur.reverse]
    | c :: t =>
      if sep.isPrefixOf (c :: t) then
        cur.reverse :: pySplitFuel sep fuel ((c :: t).drop sep.length) []
      else
        pySplitFuel sep fuel t (c :: cur)

/-- Python s.split(sep) for a non-empty separator. -/
def pySplitOn (s sep : String) : List String :=
  (pySplitFuel sep.data (s.data.length + 1) s.data []).map String.mk

/-- Worker for str.replace: replace each non-overlapping occurrence of old,
scanning left to right. -/
def pyReplaceFuel (old new : List Char) : Nat → List Char → List Char
  | 0, cs => cs
  | fuel + 1, cs =>
    match cs with
    | [] => []
    | c :: t =>
      if old.isPrefixOf (c :: t) then
        new ++ pyReplaceFuel old new fuel ((c :: t).drop old.length)
      else
        c :: pyReplaceFuel old new fuel t

/-- Python s.replace(old, new) for a non-empty old. -/
def pyReplace (s old new : String) : String :=
  String.mk (pyReplaceFuel old.data new.data (s.data.length + 1) s.data)

/-- Python s.endswith(suffix). -/
def pyEndsWith (s suffix : String) : Bool :=
  suffix.data.isSuffixOf s.data

/-- Python truthiness of an optional string (None and the empty string are falsy). -/
def truthyStr : Option String → Bool
  | none => false
  | some s => !(s == "")

/-- Python truthiness of an optional integer (None and 0 are falsy). -/
def truthyNat : Option Nat → Bool
  | none => false
  | some n => !(n == 0)

/-- Value of a digit run (int() applied to the digits captured by a regex group). -/
def digitsToNat (ds : List Char) : Nat :=
  ds.foldl (fun n c => 10 * n + (c.toNat - 48)) 0

/-! ## Module constants (spark_submit.py lines 42-43) -/

def DEFAULT_SPARK_BINARY : String := "spark-submit"

def ALLOWED_SPARK_BINARIES : List String :=
  [DEFAULT_SPARK_BINARY, "spark2-submit", "spark3-submit"]

/-! ## Pattern extractors used by process_spark_submit_log

Each implements re.search of the fixed pattern from the source:
leftmost starting position wins, greedy character-class runs. -/

/-- Character class [0-9\-] of the driver id pattern. -/
def isDriverIdChar (c : Char) : Bool := c.isDigit || c == '-'

/-- Match of r"driver-[0-9\-]+" anchored at the head of the list. -/
def driverIdAt (cs : List Char) : Option (List Char) :=
  if "driver-".data.isPrefixOf cs then
    let run := (cs.drop 7).takeWhile isDriverIdChar
    if run.isEmpty then none else some ("driver-".data ++ run)
  else none

def searchDriverId : List Char → Option (List Char)
  | [] => none
  | c :: t =>
    match driverIdAt (c :: t) with
    | some m => some m
    | none => searchDriverId t

/-- re.search(r"driver-[0-9\-]+", line), group(0). -/
def findDriverId (line : String) : Option String :=
  (searchDriverId line.data).map String.mk

/-- Character class [0-9_] of the yarn application id pattern. -/
def isYarnAppChar (c : Char) : Bool := c.isDigit || c == '_'

/-- Match of "application[0-9_]+" anchored at the head of the list. -/
def yarnAppIdAt (cs : List Char) : Option (List Char) :=
  if "application".data.isPrefixOf cs then
    let run := (cs.drop 11).takeWhile isYarnAppChar
    if run.isEmpty then none else some ("application".data ++ run)
  else none

def searchYarnAppId : List Char → Option (List Char)
  | [] => none
  | c :: t =>
    match yarnAppIdAt (c :: t) with
    | some m => some m
    | none => searchYarnAppId t

/-- re.search("application[0-9_]+", line), group(0). -/
def findYarnAppId (line : String) : Option String :=
  (searchYarnAppId line.data).map String.mk

/-- Match of r"[eE]xit code: (\d+)" anchored at the head; returns int(group(1)).
The leading \s* of the source pattern only widens the match, never the capture. -/
def exitCodeAt (cs : List Char) : Option Nat :=
  match cs with
  | [] => none
  | c :: rest =>
    if (c == 'e' || c == 'E') && "xit code: ".data.isPrefixOf rest then
      let ds := (rest.drop 10).takeWhile Char.isDigit
      if ds.isEmpty then none else some (digitsToNat ds)
    else none

def searchExitCode : List Char → Option Nat
  | [] => none
  | c :: t =>
    match exitCodeAt (c :: t) with
    | some n => some n
    | none => searchExitCode t

/-- re.search(r"\s*[eE]xit code: (\d+)", line), int(group(1)). -/
def findExitCode (line : String) : Option Nat :=
  searchExitCode line.data

/-- Character class [a-z0-9]. -/
def isLowerAlnum (c : Char) : Bool := c.isDigit || ('a' ≤ c && c ≤ 'z')

/-- Does cs split as (.+?)-([a-z0-9]+) with both groups nonempty and the first
group free of newlines?  Used for the pod-name pattern after stripping the
trailing "-driver". -/
def podSplitAux (preLen : Nat) : List Char → Bool
  | [] => false
  | c :: t =>
    if c == '-' && decide (1 ≤ preLen) && !t.isEmpty && t.all isLowerAlnum then true
    else if c == '\n' then false
    else podSplitAux (preLen + 1) t

/-- Match of r"pod name: ((.+?)-([a-z0-9]+)-driver$)" anchored at the head:
the capture is everything after "pod name: " provided it has the required shape. -/
def driverPodAt (cs : List Char) : Option (List Char) :=
  if "pod name: ".data.isPrefixOf cs then
    let r := cs.drop 10
    if "-driver".data.isSuffixOf r && podSplitAux 0 (r.take (r.length - 7)) then
      some r
    else none
  else none

def searchDriverPod : List Char → Option (List Char)
  | [] => none
  | c :: t =>
    match driverPodAt (c :: t) with
    | some m => some m
    | none => searchDriverPod t

/-- re.search(r"\s*pod name: ((.+?)-([a-z0-9]+)-driver$)", line), group(1). -/
def findDriverPod (line : String) : Option String :=
  (searchDriverPod line.data).map String.mk

/-- Match of r"spark-app-selector -> (spark-([a-z0-9]+)), " anchored at head:
greedy alphanumeric run after "spark-" followed by the literal ", ". -/
def k8sAppIdAt (cs : List Char) : Option (List Char) :=
  if "spark-app-selector -> spark-".data.isPrefixOf cs then
    let rest := cs.drop 28
    let run := rest.takeWhile isLowerAlnum
    if !run.isEmpty && ", ".data.isPrefixOf (rest.drop run.length) then
      some ("spark-".data ++ run)
    else none
  else none

def searchK8sAppId : List Char → Option (List Char)
  | [] => none
  | c :: t =>
    match k8sAppIdAt (c :: t) with
    | some m => some m
    | none => searchK8sAppId t

/-- re.search(r"\s*spark-app-selector -> (spark-([a-z0-9]+)), ", line), group(1). -/
def findK8sAppId (line : String) : Option String :=
  (searchK8sAppId line.data).map String.mk

/-! ## Submit-log processing (_process_spark_submit_log, lines 590-644) -/

/-- The parts of the resolved hook state that drive log classification:
_is_yarn and _is_kubernetes (lines 230-231), the connection deploy mode and
_should_track_driver_status (line 252). -/
structure SubmitConfig where
  master : String
  deployMode : Option String
  isYarn : Bool
  isKubernetes : Bool
  shouldTrack : Bool
deriving Repr, DecidableEq

/-- Derivation of the flags from the resolved connection, as in __init__:
_is_yarn = "yarn" in master, _is_kubernetes = "k8s" in master,
_should_track_driver_status = "spark://" in master and deploy_mode == "cluster". -/
def mkSubmitConfig (master : String) (deployMode : Option String) : SubmitConfig :=
  { master := master
    deployMode := deployMode
    isYarn := containsSub "yarn" master
    isKubernetes := containsSub "k8s" master
    shouldTrack := containsSub "spark://" master && deployMode == some "cluster" }

/-- Mutable run state touched by _process_spark_submit_log. -/
structure SubmitLogState where
  yarnApplicationId : Option String := none
  kubernetesDriverPod : Option String := none
  kubernetesApplicationId : Option String := none
  sparkExitCode : Option Nat := none
  driverId : Option String := none
deriving Repr, DecidableEq

/-- One iteration of the loop body of _process_spark_submit_log. -/
def process_spark_submit_line (cfg : SubmitConfig) (st : SubmitLogState)
    (rawLine : String) : SubmitLogState :=
  let line := pyStrip rawLine
  if cfg.isYarn && cfg.deployMode == some "cluster" then
    match findYarnAppId line with
    | some a => { st with yarnApplicationId := some a }
    | none => st
  else if cfg.isKubernetes then
    let st1 :=
      match findDriverPod line with
      | some p => { st with kubernetesDriverPod := some p }
      | none => st
    let st2 :=
      match findK8sAppId line with
      | some a => { st1 with kubernetesApplicationId := some a }
      | none => st1
    if cfg.deployMode == some "cluster" then
      match findExitCode line with
      | some n => { st2 with sparkExitCode := some n }
      | none => st2
    else
      { st2 with sparkExitCode := some 0 }
  else if cfg.shouldTrack && !truthyStr st.driverId then
    match findDriverId line with
    | some d => { st with driverId := some d }
    | none => st
  else
    st

/-- _process_spark_submit_log: consume the iterator of output lines in order. -/
def process_spark_submit_log (cfg : SubmitConfig) (st : SubmitLogState)
    (lines : List String) : SubmitLogState :=
  lines.foldl (process_spark_submit_line cfg) st

/-! ## The exit-code check of submit() (lines 556-568) -/

/-- The condition under which submit() raises AirflowException after the
spark-submit child exits:
returncode or (self._is_kubernetes and self._spark_exit_code != 0). -/
def submitExecutionCheckRaises (returncode : Int) (isKubernetes : Bool)
    (sparkExitCode : Option Nat) : Bool :=
  !(returncode == 0) || (isKubernetes && !(sparkExitCode == some 0))

/-- submit() composed of log processing followed by the exit-code check,
starting from a fresh run state. -/
def submitRaisesAfterLog (cfg : SubmitConfig) (lines : List String)
    (returncode : Int) : Bool :=
  submitExecutionCheckRaises returncode cfg.isKubernetes
    (process_spark_submit_log cfg {} lines).sparkExitCode

/-! ## Claim C1 -/

/-- C1: submit() raises ExecutionError if the child process exit code is
non-zero, or, when the target is Kubernetes, if the numeric exit code extracted
from the log lines is non-zero even when the process-level exit code is zero;
otherwise (zero process exit code and, for Kubernetes, log-reported exit code
zero) the check does not raise. -/
theorem submit_exit_code_check (rc : Int) (k8s : Bool) (code : Option Nat) :
    (rc ≠ 0 → submitExecutionCheckRaises rc k8s code = true)
    ∧ (∀ e : Nat, k8s = true → code = some e → e ≠ 0 →
        submitExecutionCheckRaises rc k8s code = true)
    ∧ (rc = 0 → (k8s = true → code = some 0) →
        submitExecutionCheckRaises rc k8s code = false) := by
  refine ⟨fun h => ?_, fun e hk hc he => ?_, fun h0 hz => ?_⟩
  · simp [submitExecutionCheckRaises, h]
  · subst hk hc
    simp [submitExecutionCheckRaises, he]
  · subst h0
    cases k8s with
    | false => simp [submitExecutionCheckRaises]
    | true => simp [submitExecutionCheckRaises, hz rfl]

theorem submit_exit_code_check_witness :
    submitExecutionCheckRaises 0 true (some 3) = true
    ∧ submitExecutionCheckRaises 0 true (some 0) = false :=
  ⟨(submit_exit_code_check 0 true (some 3)).2.1 3 rfl rfl (by decide),
   (submit_exit_code_check 0 true (some 0)).2.2 rfl (fun _ => rfl)⟩

/-! ## Claim C6 -/

/-- A line never overwrites an already-captured (truthy) driver id: the
standalone branch of _process_spark_submit_log is guarded by
`not self._driver_id`. -/
theorem process_line_driverId_mono (cfg : SubmitConfig) (st : SubmitLogState)
    (line : String) (d : String) (h : st.driverId = some d) (hd : d ≠ "") :
    (process_spark_submit_line cfg st line).driverId = some d := by
  have hne : truthyStr st.driverId = true := by
    simp [h, truthyStr]
    simpa using hd
  simp only [process_spark_submit_line]
  repeat' split
  all_goals simp_all

/-- C6: for a standalone-cluster target with driver-status tracking, driver-id
capture is first-match-wins: an extracted driver id is never overwritten by a
later log line, and feeding the two lines of the claim stores driver-001. -/
theorem driver_id_first_match_wins :
    (∀ (cfg : SubmitConfig) (st : SubmitLogState) (lines : List String) (d : String),
      st.driverId = some d → d ≠ "" →
      (process_spark_submit_log cfg st lines).driverId = some d)
    ∧ (process_spark_submit_log
        (mkSubmitConfig "spark://spark-standalone:6066" (some "cluster")) {}
        ["driver-001 started", "driver-002 started"]).driverId = some "driver-001" := by
  constructor
  · intro cfg st lines d h hd
    induction lines generalizing st with
    | nil => exact h
    | cons l t ih => exact ih _ (process_line_driverId_mono cfg st l d h hd)
  · decide

theorem driver_id_first_match_wins_witness :
    (process_spark_submit_log (mkSubmitConfig "spark://h:7077" (some "cluster"))
      { driverId := some "driver-7" } ["driver-002 started"]).driverId
      = some "driver-7" :=
  driver_id_first_match_wins.1 _ _ _ "driver-7" rfl (by decide)

/-! ## Claim C10 -/

/-- In Kubernetes cluster mode a line without an exit-code match leaves the
stored spark exit code untouched. -/
theorem process_line_k8s_cluster_exit_none (cfg : SubmitConfig)
    (st : SubmitLogState) (line : String)
    (hy : cfg.isYarn = false) (hk : cfg.isKubernetes = true)
    (hd : cfg.deployMode = some "cluster")
    (hex : findExitCode (pyStrip line) = none)
    (h : st.sparkExitCode = none) :
    (process_spark_submit_line cfg st line).sparkExitCode = none := by
  simp only [process_spark_submit_line, hy, hk, hd, hex]
  repeat' split
  all_goals simp_all

/-- C10: for a Kubernetes target in cluster deploy mode, if no log line matches
the exit-code pattern then the stored log-reported exit code stays unset, and
submit() raises even when the process-level exit code is zero, because the
check tests that the stored exit code differs from 0 and unset differs from 0. -/
theorem k8s_missing_exit_code_raises :
    ∀ (cfg : SubmitConfig) (lines : List String),
    cfg.isYarn = false → cfg.isKubernetes = true → cfg.deployMode = some "cluster" →
    (∀ l ∈ lines, findExitCode (pyStrip l) = none) →
    (process_spark_submit_log cfg {} lines).sparkExitCode = none
    ∧ submitRaisesAfterLog cfg lines 0 = true := by
  intro cfg lines hy hk hd hex
  have main : ∀ (ls : List String) (st : SubmitLogState),
      (∀ l ∈ ls, findExitCode (pyStrip l) = none) → st.sparkExitCode = none →
      (process_spark_submit_log cfg st ls).sparkExitCode = none := by
    intro ls
    induction ls with
    | nil => intro st _ h; exact h
    | cons l t ih =>
      intro st hls h
      exact ih _ (fun x hx => hls x (List.mem_cons_of_mem _ hx))
        (process_line_k8s_cluster_exit_none cfg st l hy hk hd
          (hls l (List.mem_cons_self _ _)) h)
  refine ⟨main lines {} hex rfl, ?_⟩
  unfold submitRaisesAfterLog
  rw [hk, main lines {} hex rfl]
  decide

theorem k8s_missing_exit_code_raises_witness :
    (process_spark_submit_log (mkSubmitConfig "k8s://https://kube:443"
        (some "cluster")) {} ["phase: Succeeded"]).sparkExitCode = none
    ∧ submitRaisesAfterLog (mkSubmitConfig "k8s://https://kube:443"
        (some "cluster")) ["phase: Succeeded"] 0 = true :=
  k8s_missing_exit_code_raises _ _ (by decide) (by decide) rfl (by decide)

/-! ## Status-poll log processing (_process_spark_status_log, lines 646-670) -/

/-- Exceptions that can escape the status-poll machinery. -/
inductive SparkErr
  | indexError          -- IndexError from line.split(" : ")[1]
  | noDriverId          -- AirflowException: no driver id known when polling
  | pollRetryExceeded   -- AirflowException: failed to poll 10 times
deriving Repr, DecidableEq

/-- Loop accumulator of _process_spark_status_log: the two local flags plus the
mutable self._driver_status. -/
structure StatusLogAcc where
  validResponse : Bool
  driverFound : Bool
  status : Option String
deriving Repr, DecidableEq

/-- One iteration of the loop body of _process_spark_status_log. -/
def process_spark_status_line (acc : StatusLogAcc) (rawLine : String) :
    Except SparkErr StatusLogAcc :=
  let line := pyStrip rawLine
  let acc1 :=
    if containsSub "submissionId" line then { acc with validResponse := true } else acc
  if containsSub "driverState" line then
    match (pySplitOn line " : ").get? 1 with
    | none => .error .indexError
    | some s =>
      .ok { acc1 with
              status := some (pyStrip (pyReplace (pyReplace s "," "") "\"" ""))
              driverFound := true }
  else
    .ok acc1

def statusLogFold : List String → StatusLogAcc → Except SparkErr StatusLogAcc
  | [], acc => .ok acc
  | l :: t, acc =>
    match process_spark_status_line acc l with
    | .error e => .error e
    | .ok acc2 => statusLogFold t acc2

/-- _process_spark_status_log: fold the lines, then force UNKNOWN when a
valid-looking response carried no driverState field. -/
def process_spark_status_log (lines : List String) (status : Option String) :
    Except SparkErr (Option String) :=
  match statusLogFold lines { validResponse := false, driverFound := false, status := status } with
  | .error e => .error e
  | .ok acc =>
    .ok (if acc.validResponse && !acc.driverFound then some "UNKNOWN" else acc.status)

/-! ## Driver status tracking loop (lines 478-518 and 672-734) -/

/-- _build_track_driver_status_command: curl against the REST port when the
master ends in :6066, otherwise the spark binary with --status; raises when no
driver id is known. -/
def build_track_driver_status_command (master sparkBinary : String)
    (driverId : Option String) : Except SparkErr (List String) :=
  if pyEndsWith master ":6066" then
    let sparkHost := pyReplace master "spark://" "http://"
    let cmd := ["/usr/bin/curl", "--max-time", "30",
      sparkHost ++ "/v1/submissions/status/" ++ driverId.getD "None"]
    if !truthyStr driverId then .error .noDriverId else .ok cmd
  else
    if truthyStr driverId then
      .ok [sparkBinary, "--master", master, "--status", driverId.getD ""]
    else .error .noDriverId

/-- Possible driver states (docstring of _start_driver_status_tracking);
the loop exits on this terminal set. -/
def driverTerminalStates : List String := ["FINISHED", "UNKNOWN", "KILLED", "FAILED", "ERROR"]

/-- The while condition: self._driver_status not in the terminal list
(None is not in the list, so tracking continues). -/
def statusIsTerminal : Option String → Bool
  | none => false
  | some s => driverTerminalStates.contains s

/-- Outcome of one status-check subprocess: its exit code and output lines. -/
structure PollResp where
  rc : Int
  lines : List String
deriving Repr, DecidableEq

/-- _start_driver_status_tracking over a finite trace of status-check
responses.  missed is missed_job_status_reports; the budget
max_missed_job_status_reports is 10.  An exhausted trace returns the state
reached so far (the real loop would keep polling). -/
def start_driver_status_tracking (master sparkBinary : String)
    (driverId : Option String) :
    Option String → Nat → List PollResp → Except SparkErr (Option String × Nat)
  | st, missed, [] => .ok (st, missed)
  | st, missed, r :: rest =>
    if statusIsTerminal st then .ok (st, missed)
    else
      match build_track_driver_status_command master sparkBinary driverId with
      | .error e => .error e
      | .ok _cmd =>
        match process_spark_status_log r.lines st with
        | .error e => .error e
        | .ok st2 =>
          if !(r.rc == 0) then
            if missed < 10 then
              start_driver_status_tracking master sparkBinary driverId st2 (missed + 1) rest
            else .error .pollRetryExceeded
          else start_driver_status_tracking master sparkBinary driverId st2 missed rest

/-- Number of status-check attempts in a trace whose command exited non-zero. -/
def countPollFailures (rs : List PollResp) : Nat :=
  (rs.filter (fun r => !(r.rc == 0))).length

/-! ## Claim C7 -/

/-- Does any line of the response mention the submission-id marker? -/
def statusAnySubmission (lines : List String) : Bool :=
  lines.any (fun l => containsSub "submissionId" (pyStrip l))

/-- When no line mentions driverState, the fold only raises the validResponse
flag: no IndexError, no state capture, status untouched. -/
theorem statusLogFold_no_driverState (lines : List String) :
    ∀ acc : StatusLogAcc,
    (∀ l ∈ lines, containsSub "driverState" (pyStrip l) = false) →
    statusLogFold lines acc
      = .ok { acc with validResponse := acc.validResponse || statusAnySubmission lines } := by
  induction lines with
  | nil =>
    intro acc _
    simp [statusLogFold, statusAnySubmission]
  | cons l t ih =>
    intro acc h
    have hl : containsSub "driverState" (pyStrip l) = false := h l (List.mem_cons_self _ _)
    have ht : ∀ x ∈ t, containsSub "driverState" (pyStrip x) = false :=
      fun x hx => h x (List.mem_cons_of_mem _ hx)
    simp only [statusLogFold, process_spark_status_line, hl, Bool.false_eq_true, if_false]
    cases hc : containsSub "submissionId" (pyStrip l) with
    | false =>
      simp only [hc, Bool.false_eq_true, if_false]
      rw [ih _ ht]
      simp [statusAnySubmission, hc]
    | true =>
      simp only [hc, if_true]
      rw [ih _ ht]
      simp [statusAnySubmission, hc]

/-- C7: a status line of the shape given in the claim parses to FINISHED
(unquoted, commas stripped) regardless of the previous status, and a response
that carries a submission-id marker but no driverState field forces the stored
status to UNKNOWN instead of leaving the previous status in place. -/
theorem status_poll_log_classification :
    (∀ st0 : Option String,
      process_spark_status_log ["    \"driverState\" : \"FINISHED\","] st0
        = .ok (some "FINISHED"))
    ∧ (∀ (lines : List String) (st0 : Option String),
        (∃ l ∈ lines, containsSub "submissionId" (pyStrip l) = true) →
        (∀ l ∈ lines, containsSub "driverState" (pyStrip l) = false) →
        process_spark_status_log lines st0 = .ok (some "UNKNOWN")) := by
  constructor
  · intro st0
    rfl
  · intro lines st0 hsub hnod
    obtain ⟨l, hl, hls⟩ := hsub
    have hany : statusAnySubmission lines = true :=
      List.any_eq_true.mpr ⟨l, hl, hls⟩
    unfold process_spark_status_log
    rw [statusLogFold_no_driverState lines _ hnod]
    simp [hany]

theorem status_poll_log_classification_witness :
    process_spark_status_log ["    \"driverState\" : \"FINISHED\","] (some "SUBMITTED")
      = .ok (some "FINISHED")
    ∧ process_spark_status_log
        ["  \"submissionId\" : \"driver-20191129132625-0000\","] (some "SUBMITTED")
      = .ok (some "UNKNOWN") :=
  ⟨status_poll_log_classification.1 (some "SUBMITTED"),
   status_poll_log_classification.2 _ (some "SUBMITTED")
     ⟨"  \"submissionId\" : \"driver-20191129132625-0000\",", by decide, by decide⟩
     (by decide)⟩

/-! ## Claim C2 -/

/-- With a known driver id the status-command builder always succeeds. -/
theorem build_track_ok (master sparkBinary : String) (driverId : Option String)
    (h : truthyStr driverId = true) :
    ∃ cmd, build_track_driver_status_command master sparkBinary driverId
      = .ok cmd := by
  unfold build_track_driver_status_command
  split <;> simp [h]

/-- C2 counterexample: a trace that alternates one failed status check with one
successful one never has two consecutive failures, yet the loop still raises
once the cumulative number of failures reaches 11: the budget is never reset by
successful checks, contradicting the claim that only consecutive failures
count. -/
theorem poll_retry_reset_counterexample :
    start_driver_status_tracking "spark://h:7077" "spark-submit" (some "driver-x")
      (some "SUBMITTED") 0
      ((List.replicate 10 ([⟨1, []⟩, ⟨0, []⟩] : List PollResp)).flatten ++ [⟨1, []⟩])
      = .error .pollRetryExceeded := by rfl

/-- C2 amended: a non-zero-exit status check is retried, but the failure
counter is cumulative over the whole tracking session: starting from counter m,
the loop raises ExecutionError exactly when the total number of non-zero-exit
attempts in the trace reaches 11 - m, regardless of interleaved successful
checks; otherwise every failure has incremented the counter, which is never
reset. -/
theorem poll_retry_budget_cumulative (master sparkBinary : String)
    (driverId : Option String) (rs : List PollResp) :
    ∀ m : Nat, truthyStr driverId = true →
    (∀ r ∈ rs, r.lines = ([] : List String)) → m ≤ 10 →
    start_driver_status_tracking master sparkBinary driverId (some "SUBMITTED") m rs
      = if 11 ≤ m + countPollFailures rs then .error .pollRetryExceeded
        else .ok (some "SUBMITTED", m + countPollFailures rs) := by
  induction rs with
  | nil =>
    intro m _ _ hm
    rw [if_neg (by simp only [countPollFailures, List.filter_nil, List.length_nil]; omega)]
    simp [start_driver_status_tracking, countPollFailures]
  | cons r t ih =>
    intro m hdr hl hm
    obtain ⟨cmd, hcmd⟩ := build_track_ok master sparkBinary driverId hdr
    have hr : r.lines = [] := hl r (List.mem_cons_self _ _)
    have ht : ∀ x ∈ t, x.lines = ([] : List String) :=
      fun x hx => hl x (List.mem_cons_of_mem _ hx)
    have hterm : statusIsTerminal (some "SUBMITTED") = false := by decide
    have hproc : process_spark_status_log r.lines (some "SUBMITTED")
        = .ok (some "SUBMITTED") := by rw [hr]; rfl
    simp only [start_driver_status_tracking, hterm, Bool.false_eq_true, if_false,
      hcmd, hproc]
    cases hrc : (r.rc == 0) with
    | true =>
      have hcount : countPollFailures (r :: t) = countPollFailures t := by
        simp [countPollFailures, hrc]
      simp only [hrc, Bool.not_true, Bool.false_eq_true, if_false]
      rw [ih m hdr ht hm, hcount]
    | false =>
      have hcount : countPollFailures (r :: t) = countPollFailures t + 1 := by
        simp [countPollFailures, hrc]
      simp only [hrc, Bool.not_false, if_true]
      by_cases hlt : m < 10
      · rw [if_pos hlt, ih (m + 1) hdr ht (by omega), hcount]
        have harith : m + 1 + countPollFailures t = m + (countPollFailures t + 1) := by omega
        rw [harith]
      · rw [if_neg hlt, if_pos (by rw [hcount]; omega)]

theorem poll_retry_budget_cumulative_witness :
    start_driver_status_tracking "spark://h:7077" "spark-submit" (some "driver-x")
      (some "SUBMITTED") 0 [⟨1, []⟩, ⟨0, []⟩, ⟨1, []⟩]
      = .ok (some "SUBMITTED", 2) := by
  rw [poll_retry_budget_cumulative "spark://h:7077" "spark-submit" (some "driver-x")
    [⟨1, []⟩, ⟨0, []⟩, ⟨1, []⟩] 0 (by decide) (by decide) (by decide)]
  rfl

/-! ## Filesystem model and keytab materialization
(_create_keytab_path_from_base64_keytab, lines 317-354) -/

/-- File contents. -/
abbrev Bytes := List UInt8

/-- A filesystem as an association list from paths to contents. -/
abbrev FS := List (String × Bytes)

def fsLookup (fs : FS) (k : String) : Option Bytes :=
  match fs with
  | [] => none
  | (k2, v) :: t => if k2 == k then some v else fsLookup t k

def fsEraseAll (k : String) : FS → FS
  | [] => []
  | (k2, v) :: t => if k2 == k then fsEraseAll k t else (k2, v) :: fsEraseAll k t

/-- Create or overwrite a file. -/
def fsSet (fs : FS) (k : String) (v : Bytes) : FS :=
  (k, v) :: fsEraseAll k fs

/-- Path(p).unlink() guarded by Path(p).exists(). -/
def unlinkIfExists (fs : FS) (p : String) : FS :=
  match fsLookup fs p with
  | some _ => fsEraseAll p fs
  | none => fs

inductive KeytabErr
  | decodeError   -- AirflowException("Failed to decode base64 keytab")
  | saveError     -- AirflowException("Failed to save keytab")
deriving Repr, DecidableEq

/-- How far the staging write / move gets before failing. -/
inductive WriteOutcome
  | ok
  | openFail                -- open(staging_path, "wb") itself raises
  | writeFail (part : Bytes)  -- f.write fails after part was written
  | moveFail                -- shutil.move raises
deriving Repr, DecidableEq

/-- Path(tempfile.gettempdir()).resolve(), modeled as a constant. -/
def tempDir : String := "/tmp"

/-- temp_file_name = f"airflow_keytab-{principal or _uuid}" (truthiness: an
empty principal falls back to the uuid). -/
def keytabFileName (principal : Option String) (uuidStr : String) : String :=
  "airflow_keytab-" ++
    (match principal with
     | some p => if p == "" then uuidStr else p
     | none => uuidStr)

def keytabPath (principal : Option String) (uuidStr : String) : String :=
  tempDir ++ "/" ++ keytabFileName principal uuidStr

def stagingPath (principal : Option String) (uuidStr : String) : String :=
  tempDir ++ "/." ++ keytabFileName principal uuidStr ++ "." ++ uuidStr

/-- The write-staging-then-move block of the source, including the finally
clause that unlinks a leftover staging file on every path. -/
def keytabWriteFlow (fs : FS) (kPath sPath : String) (keytab : Bytes)
    (oc : WriteOutcome) : Except KeytabErr String × FS :=
  match oc with
  | .ok =>
    let fs1 := fsSet fs sPath keytab
    -- shutil.move: within the same directory this is an atomic rename that
    -- overwrites the destination
    let fs2 := fsSet (fsEraseAll sPath fs1) kPath keytab
    (.ok kPath, unlinkIfExists fs2 sPath)
  | .openFail => (.error .saveError, unlinkIfExists fs sPath)
  | .writeFail part => (.error .saveError, unlinkIfExists (fsSet fs sPath part) sPath)
  | .moveFail => (.error .saveError, unlinkIfExists (fsSet fs sPath keytab) sPath)

/-- _create_keytab_path_from_base64_keytab.  base64.b64decode is passed in as a
function, the uuid4 value and the fate of the write as explicit inputs. -/
def create_keytab_path_from_base64_keytab (b64decode : String → Option Bytes)
    (fs : FS) (base64Keytab : String) (principal : Option String)
    (uuidStr : String) (oc : WriteOutcome) : Except KeytabErr String × FS :=
  let kPath := keytabPath principal uuidStr
  let sPath := stagingPath principal uuidStr
  match b64decode base64Keytab with
  | none => (.error .decodeError, fs)
  | some keytab =>
    match fsLookup fs kPath with
    | some existing =>
      if existing == keytab then (.ok kPath, fs)
      else keytabWriteFlow fs kPath sPath keytab oc
    | none => keytabWriteFlow fs kPath sPath keytab oc

/-! ## Filesystem lemmas -/

theorem fsLookup_fsSet_self (fs : FS) (k : String) (v : Bytes) :
    fsLookup (fsSet fs k v) k = some v := by
  simp [fsSet, fsLookup]

theorem fsLookup_eraseAll_self (k : String) (fs : FS) :
    fsLookup (fsEraseAll k fs) k = none := by
  induction fs with
  | nil => rfl
  | cons kv t ih =>
    obtain ⟨k2, v⟩ := kv
    by_cases h : k2 == k
    · simp [fsEraseAll, h, ih]
    · simp only [fsEraseAll, h, Bool.false_eq_true, if_false]
      simp [fsLookup, h, ih]

theorem fsLookup_eraseAll_ne (k k2 : String) (fs : FS) (h : k ≠ k2) :
    fsLookup (fsEraseAll k fs) k2 = fsLookup fs k2 := by
  induction fs with
  | nil => rfl
  | cons kv t ih =>
    obtain ⟨k3, v⟩ := kv
    by_cases h3 : k3 == k
    · have : k3 = k := by simpa using h3
      subst this
      have : (k3 == k2) = false := by simpa using h
      simp [fsEraseAll, fsLookup, this, ih]
    · simp only [fsEraseAll, h3, Bool.false_eq_true, if_false]
      by_cases h2 : k3 == k2
      · simp [fsLookup, h2]
      · simp [fsLookup, h2, ih]

theorem fsLookup_fsSet_ne (fs : FS) (k : String) (v : Bytes) (k2 : String)
    (h : k ≠ k2) : fsLookup (fsSet fs k v) k2 = fsLookup fs k2 := by
  have hb : (k == k2) = false := by simpa using h
  simp only [fsSet, fsLookup, hb, Bool.false_eq_true, if_false]
  exact fsLookup_eraseAll_ne k k2 fs h

theorem fsEraseAll_absent (k : String) (fs : FS) (h : fsLookup fs k = none) :
    fsEraseAll k fs = fs := by
  induction fs with
  | nil => rfl
  | cons kv t ih =>
    obtain ⟨k2, v⟩ := kv
    by_cases h2 : k2 == k
    · simp [fsLookup, h2] at h
    · simp only [fsLookup, h2, Bool.false_eq_true, if_false] at h
      simp [fsEraseAll, h2, ih h]

/-- The final keytab path and the staging path always differ (the staging name
carries an extra leading dot and a uuid suffix). -/
theorem keytabPath_ne_stagingPath (pr : Option String) (u : String) :
    keytabPath pr u ≠ stagingPath pr u := by
  have a1 : ("/tmp/" : String).length = 5 := rfl
  have a2 : ("/tmp/." : String).length = 6 := rfl
  have a3 : ("." : String).length = 1 := rfl
  have l1 : (keytabPath pr u).length = 5 + (keytabFileName pr u).length := by
    simp [keytabPath, tempDir, String.length_append, a1]
    try omega
  have l2 : (stagingPath pr u).length
      = 7 + (keytabFileName pr u).length + u.length := by
    simp [stagingPath, tempDir, String.length_append, a2, a3]
    try omega
  intro h
  have hlen := congrArg String.length h
  rw [l1, l2] at hlen
  omega

/-! ## Claim C4 -/

/-- A fully successful write: stage, move (leaving no staging entry), nothing
to unlink. -/
theorem keytabWriteFlow_okOutcome (fs : FS) (kPath sPath : String) (bytes : Bytes)
    (hne : kPath ≠ sPath) :
    keytabWriteFlow fs kPath sPath bytes .ok
      = (.ok kPath, fsSet (fsEraseAll sPath (fsSet fs sPath bytes)) kPath bytes) := by
  have h1 : fsLookup (fsSet (fsEraseAll sPath (fsSet fs sPath bytes)) kPath bytes) sPath
      = none := by
    rw [fsLookup_fsSet_ne _ _ _ _ hne]
    exact fsLookup_eraseAll_self _ _
  simp [keytabWriteFlow, unlinkIfExists, h1]

/-- Any failing write outcome leaves the filesystem exactly as it was, provided
the staging path was fresh: the finally clause removes the staging artifact and
the final path is never touched. -/
theorem keytabWriteFlow_failOutcome (fs : FS) (kPath sPath : String) (bytes : Bytes)
    (oc : WriteOutcome) (hoc : oc ≠ .ok) (hfresh : fsLookup fs sPath = none) :
    keytabWriteFlow fs kPath sPath bytes oc = (.error .saveError, fs) := by
  have herase : ∀ v : Bytes, fsEraseAll sPath (fsSet fs sPath v) = fs := by
    intro v
    show fsEraseAll sPath ((sPath, v) :: fsEraseAll sPath fs) = fs
    rw [fsEraseAll_absent _ _ hfresh]
    simp [fsEraseAll]
    exact fsEraseAll_absent _ _ hfresh
  cases oc with
  | ok => exact absurd rfl hoc
  | openFail => simp [keytabWriteFlow, unlinkIfExists, hfresh]
  | writeFail part =>
    simp [keytabWriteFlow, unlinkIfExists, fsLookup_fsSet_self, herase]
  | moveFail =>
    simp [keytabWriteFlow, unlinkIfExists, fsLookup_fsSet_self, herase]

/-- Characterization of a successful materialization: the returned path is the
deterministic keytab path, it now holds the decoded bytes, and no staging
artifact remains. -/
theorem create_ok_result (dec : String → Option Bytes) (fs : FS) (b64 : String)
    (pr : Option String) (u : String) (path : String) (fs1 : FS) (bytes : Bytes)
    (hdec : dec b64 = some bytes)
    (hfresh : fsLookup fs (stagingPath pr u) = none)
    (h : create_keytab_path_from_base64_keytab dec fs b64 pr u .ok = (.ok path, fs1)) :
    path = keytabPath pr u ∧ fsLookup fs1 path = some bytes
    ∧ fsLookup fs1 (stagingPath pr u) = none := by
  have hne := keytabPath_ne_stagingPath pr u
  simp only [create_keytab_path_from_base64_keytab, hdec] at h
  cases hlk : fsLookup fs (keytabPath pr u) with
  | some existing =>
    simp only [hlk] at h
    by_cases hb : existing = bytes
    · subst hb
      simp only [beq_self_eq_true, if_true, Prod.mk.injEq, Except.ok.injEq] at h
      obtain ⟨h1, h2⟩ := h
      subst h1
      subst h2
      exact ⟨rfl, hlk, hfresh⟩
    · have hbx : (existing == bytes) = false := by simpa using hb
      simp only [hbx, Bool.false_eq_true, if_false,
        keytabWriteFlow_okOutcome fs _ _ bytes hne, Prod.mk.injEq,
        Except.ok.injEq] at h
      obtain ⟨h1, h2⟩ := h
      subst h1
      subst h2
      refine ⟨rfl, fsLookup_fsSet_self _ _ _, ?_⟩
      rw [fsLookup_fsSet_ne _ _ _ _ hne]
      exact fsLookup_eraseAll_self _ _
  | none =>
    simp only [hlk, keytabWriteFlow_okOutcome fs _ _ bytes hne, Prod.mk.injEq,
      Except.ok.injEq] at h
    obtain ⟨h1, h2⟩ := h
    subst h1
    subst h2
    refine ⟨rfl, fsLookup_fsSet_self _ _ _, ?_⟩
    rw [fsLookup_fsSet_ne _ _ _ _ hne]
    exact fsLookup_eraseAll_self _ _

/-- For a truthy principal the target path does not depend on the uuid. -/
theorem keytabPath_const (p : String) (hp : p ≠ "") (u1 u2 : String) :
    keytabPath (some p) u1 = keytabPath (some p) u2 := by
  have : (p == "") = false := by simpa using hp
  simp [keytabPath, keytabFileName, this]

/-- C4: keytab materialization is idempotent: after a successful call, a second
call with the same base64 blob and the same (non-empty) principal returns the
same path and leaves the filesystem untouched (no write, no new file, no
staging artifact), whatever the write outcome of the second call would have
been; and on any write failure the staging file is removed and the filesystem
(in particular the final path) is left exactly as before. -/
theorem keytab_materialization_idempotent_atomic :
    (∀ (dec : String → Option Bytes) (fs : FS) (b64 : String) (p u1 u2 : String)
       (oc2 : WriteOutcome) (bytes : Bytes) (path : String) (fs1 : FS),
       dec b64 = some bytes → p ≠ "" →
       fsLookup fs (stagingPath (some p) u1) = none →
       create_keytab_path_from_base64_keytab dec fs b64 (some p) u1 .ok
         = (.ok path, fs1) →
       create_keytab_path_from_base64_keytab dec fs1 b64 (some p) u2 oc2
         = (.ok path, fs1)
       ∧ fsLookup fs1 path = some bytes
       ∧ fsLookup fs1 (stagingPath (some p) u1) = none)
    ∧ (∀ (dec : String → Option Bytes) (fs : FS) (b64 : String)
        (pr : Option String) (u : String) (oc : WriteOutcome) (bytes : Bytes),
        dec b64 = some bytes → oc ≠ .ok →
        fsLookup fs (stagingPath pr u) = none →
        fsLookup fs (keytabPath pr u) ≠ some bytes →
        create_keytab_path_from_base64_keytab dec fs b64 pr u oc
          = (.error .saveError, fs)) := by
  constructor
  · intro dec fs b64 p u1 u2 oc2 bytes path fs1 hdec hp hfresh h1
    obtain ⟨hpath, hlook, hstag⟩ :=
      create_ok_result dec fs b64 (some p) u1 path fs1 bytes hdec hfresh h1
    have hpp : keytabPath (some p) u2 = path :=
      (keytabPath_const p hp u1 u2).symm.trans hpath.symm
    refine ⟨?_, hlook, hstag⟩
    simp only [create_keytab_path_from_base64_keytab, hdec, hpp, hlook,
      beq_self_eq_true, if_true]
  · intro dec fs b64 pr u oc bytes hdec hoc hfresh hneq
    have hne := keytabPath_ne_stagingPath pr u
    simp only [create_keytab_path_from_base64_keytab, hdec]
    cases hlk : fsLookup fs (keytabPath pr u) with
    | some existing =>
      have hbx : (existing == bytes) = false := by
        have hx : existing ≠ bytes := fun he => hneq (he ▸ hlk)
        simpa using hx
      simp only [hlk, hbx, Bool.false_eq_true, if_false]
      exact keytabWriteFlow_failOutcome fs _ _ bytes oc hoc hfresh
    | none =>
      simp only [hlk]
      exact keytabWriteFlow_failOutcome fs _ _ bytes oc hoc hfresh

theorem keytab_materialization_witness :
    create_keytab_path_from_base64_keytab (fun _ => some [1]) 
      [("/tmp/airflow_keytab-airflow", [1])] "AQ==" (some "airflow") "u2" .moveFail
      = (.ok "/tmp/airflow_keytab-airflow", [("/tmp/airflow_keytab-airflow", [1])])
    ∧ create_keytab_path_from_base64_keytab (fun _ => some [1]) [] "AQ==" none
        "u3" (.writeFail [7]) = (.error .saveError, []) := by
  constructor
  · exact (keytab_materialization_idempotent_atomic.1 (fun _ => some [1]) [] "AQ=="
      "airflow" "u1" "u2" .moveFail [1] "/tmp/airflow_keytab-airflow"
      [("/tmp/airflow_keytab-airflow", [1])] rfl (by decide) rfl rfl).1
  · exact keytab_materialization_idempotent_atomic.2 (fun _ => some [1]) [] "AQ=="
      none "u3" (.writeFail [7]) [1] rfl (by decide) rfl (by decide)

/-! ## Connection resolution (_resolve_connection, lines 254-312) -/

/-- The keys of conn.extra_dejson read by _resolve_connection. -/
structure ConnExtra where
  queue : Option String := none
  deployMode : Option String := none    -- key "deploy-mode"
  sparkBinary : Option String := none   -- key "spark-binary"
  sparkHome : Option String := none     -- key "spark-home"
  namespaceEx : Option String := none   -- key "namespace"
  principal : Option String := none
  keytab : Option String := none        -- base64-encoded keytab
deriving Repr, DecidableEq

/-- An Airflow connection record as read by _resolve_connection. -/
structure Conn where
  host : String
  port : Option Nat := none
  extra : ConnExtra := {}
deriving Repr, DecidableEq

/-- The conn_data dictionary built by _resolve_connection. -/
structure ConnData where
  master : String
  queue : Option String
  deployMode : Option String
  sparkBinary : String
  namespaceC : Option String
  principal : Option String
  keytab : Option String
deriving Repr, DecidableEq

/-- Errors that escape _resolve_connection (both RuntimeError in the source;
the AirflowException of get_connection and of the keytab helper are caught). -/
inductive ResolveErr
  | binaryNotAllowed   -- spark-binary extra not in ALLOWED_SPARK_BINARIES
  | sparkHomeNotAllowed  -- deprecated spark-home extra present
deriving Repr, DecidableEq

/-- The constructor arguments / hook fields that _resolve_connection reads. -/
structure HookArgs where
  sparkBinary : Option String := none   -- self.spark_binary
  yarnQueue : Option String := none     -- self._yarn_queue
  deployMode : Option String := none    -- self._deploy_mode
  principal : Option String := none     -- self._principal
  keytab : Option String := none        -- self._keytab
  conf : List (String × String) := []   -- self._conf (insertion-ordered dict)
deriving Repr, DecidableEq

/-- Python dict lookup on the conf mapping. -/
def confLookup (conf : List (String × String)) (k : String) : Option String :=
  match conf with
  | [] => none
  | (k2, v) :: t => if k2 == k then some v else confLookup t k

/-- master: f-string host:port when the port is truthy, else the bare host. -/
def resolveMaster (c : Conn) : String :=
  match c.port with
  | some p => if p == 0 then c.host else c.host ++ ":" ++ toString p
  | none => c.host

/-- queue: self._yarn_queue if self._yarn_queue else extra.get("queue"). -/
def resolveQueue (argQueue extraQueue : Option String) : Option String :=
  if truthyStr argQueue then argQueue else extraQueue

/-- deploy_mode: self._deploy_mode if self._deploy_mode else extra.get("deploy-mode"). -/
def resolveDeployMode (argMode extraMode : Option String) : Option String :=
  if truthyStr argMode then argMode else extraMode

/-- The spark-binary selection inside the try block: only when no (truthy)
binary was supplied explicitly is the extra consulted, and only that value is
validated against ALLOWED_SPARK_BINARIES. -/
def resolveSparkBinary (argBinary extraBinary : Option String) :
    Except ResolveErr String :=
  if !truthyStr argBinary then
    let b := extraBinary.getD DEFAULT_SPARK_BINARY
    if ALLOWED_SPARK_BINARIES.contains b then .ok b else .error .binaryNotAllowed
  else .ok (argBinary.getD DEFAULT_SPARK_BINARY)

/-- principal: filled from the extras only when conn_data["principal"] is None. -/
def resolvePrincipal (argPrincipal extraPrincipal : Option String) : Option String :=
  if argPrincipal == none then extraPrincipal else argPrincipal

/-- keytab: filled from the base64 extra only when conn_data["keytab"] is None;
a failure of the keytab helper is an AirflowException, which the enclosing
except clause of _resolve_connection swallows, leaving the keytab unset. -/
def resolveKeytab (b64decode : String → Option Bytes) (fs : FS)
    (argKeytab extraKeytab principal : Option String) (uuidStr : String)
    (oc : WriteOutcome) : Option String × FS :=
  match argKeytab with
  | some k => (some k, fs)
  | none =>
    match extraKeytab with
    | none => (none, fs)
    | some b64 =>
      match create_keytab_path_from_base64_keytab b64decode fs b64 principal uuidStr oc with
      | (.ok kp, fs2) => (some kp, fs2)
      | (.error _, fs2) => (none, fs2)

/-- The post-try override: conn_data["namespace"] from
self._conf["spark.kubernetes.namespace"] when that key is present. -/
def applyNamespaceConf (conf : List (String × String)) (d : ConnData) : ConnData :=
  match confLookup conf "spark.kubernetes.namespace" with
  | some ns => { d with namespaceC := some ns }
  | none => d

/-- The spark_binary entry of the initial conn_data dictionary:
self.spark_binary or DEFAULT_SPARK_BINARY. -/
def initialSparkBinary (argBinary : Option String) : String :=
  match argBinary with
  | some s => if s == "" then DEFAULT_SPARK_BINARY else s
  | none => DEFAULT_SPARK_BINARY

/-- _resolve_connection.  conn = none models get_connection raising
AirflowException (caught: defaults kept, fall through to the conf override).
The two RuntimeErrors propagate as Except errors. -/
def resolve_connection (args : HookArgs) (conn : Option Conn)
    (b64decode : String → Option Bytes) (fs : FS) (uuidStr : String)
    (oc : WriteOutcome) : Except ResolveErr ConnData × FS :=
  match conn with
  | none =>
    let d : ConnData :=
      { master := "yarn", queue := none, deployMode := none
        sparkBinary := initialSparkBinary args.sparkBinary
        namespaceC := none, principal := args.principal, keytab := args.keytab }
    (.ok (applyNamespaceConf args.conf d), fs)
  | some c =>
    match resolveSparkBinary args.sparkBinary c.extra.sparkBinary with
    | .error e => (.error e, fs)
    | .ok sb =>
      if truthyStr c.extra.sparkHome then (.error .sparkHomeNotAllowed, fs)
      else
        let pr := resolvePrincipal args.principal c.extra.principal
        let ktfs := resolveKeytab b64decode fs args.keytab c.extra.keytab pr uuidStr oc
        let d : ConnData :=
          { master := resolveMaster c
            queue := resolveQueue args.yarnQueue c.extra.queue
            deployMode := resolveDeployMode args.deployMode c.extra.deployMode
            sparkBinary := sb
            namespaceC := c.extra.namespaceEx
            principal := pr
            keytab := ktfs.1 }
        (.ok (applyNamespaceConf args.conf d), ktfs.2)

/-! ## Claim C3 -/

/-- Modelled from the spec sentence "explicit caller-supplied value > value
found in connection extras > hardcoded default": the specification-side
selector that the code is compared against. -/
def specPick (explicit extraVal dflt : Option String) : Option String :=
  match explicit with
  | some v => some v
  | none =>
    match extraVal with
    | some w => some w
    | none => dflt

theorem truthyPick_spec (a e : Option String) (h : ∀ s, a = some s → s ≠ "") :
    (if truthyStr a then a else e) = specPick a e none := by
  cases a with
  | none => cases e <;> simp [specPick, truthyStr]
  | some s =>
    have hs : (s == "") = false := by simpa using h s rfl
    simp [specPick, truthyStr, hs]

theorem resolveQueue_spec (a e : Option String) (h : ∀ s, a = some s → s ≠ "") :
    resolveQueue a e = specPick a e none :=
  truthyPick_spec a e h

theorem resolveDeployMode_spec (a e : Option String)
    (h : ∀ s, a = some s → s ≠ "") :
    resolveDeployMode a e = specPick a e none :=
  truthyPick_spec a e h

theorem resolvePrincipal_spec (a e : Option String) :
    resolvePrincipal a e = specPick a e none := by
  cases a <;> cases e <;> simp [resolvePrincipal, specPick]

theorem resolveSparkBinary_spec (a e : Option String)
    (h : ∀ s, a = some s → s ≠ "")
    (hv : a = none →
      ALLOWED_SPARK_BINARIES.contains (e.getD DEFAULT_SPARK_BINARY) = true) :
    ∃ sb, resolveSparkBinary a e = .ok sb
      ∧ some sb = specPick a e (some DEFAULT_SPARK_BINARY) := by
  cases a with
  | none =>
    refine ⟨e.getD DEFAULT_SPARK_BINARY, ?_, ?_⟩
    · have hv2 : e.getD DEFAULT_SPARK_BINARY ∈ ALLOWED_SPARK_BINARIES := by
        simpa using hv rfl
      simp [resolveSparkBinary, truthyStr, hv2]
    · cases e <;> simp [specPick]
  | some s =>
    have hs : (s == "") = false := by simpa using h s rfl
    exact ⟨s, by simp [resolveSparkBinary, truthyStr, hs], by simp [specPick]⟩

theorem applyNamespaceConf_queue (conf : List (String × String)) (d : ConnData) :
    (applyNamespaceConf conf d).queue = d.queue := by
  unfold applyNamespaceConf
  cases confLookup conf "spark.kubernetes.namespace" <;> rfl

theorem applyNamespaceConf_deployMode (conf : List (String × String)) (d : ConnData) :
    (applyNamespaceConf conf d).deployMode = d.deployMode := by
  unfold applyNamespaceConf
  cases confLookup conf "spark.kubernetes.namespace" <;> rfl

theorem applyNamespaceConf_sparkBinary (conf : List (String × String)) (d : ConnData) :
    (applyNamespaceConf conf d).sparkBinary = d.sparkBinary := by
  unfold applyNamespaceConf
  cases confLookup conf "spark.kubernetes.namespace" <;> rfl

theorem applyNamespaceConf_principal (conf : List (String × String)) (d : ConnData) :
    (applyNamespaceConf conf d).principal = d.principal := by
  unfold applyNamespaceConf
  cases confLookup conf "spark.kubernetes.namespace" <;> rfl

theorem applyNamespaceConf_keytab (conf : List (String × String)) (d : ConnData) :
    (applyNamespaceConf conf d).keytab = d.keytab := by
  unfold applyNamespaceConf
  cases confLookup conf "spark.kubernetes.namespace" <;> rfl

/-- C3: for queue, deploy mode, spark binary, principal and keytab, connection
resolution realizes the precedence explicit caller value > connection extra >
hardcoded default, whatever combination of sources is populated.  (Explicit
string overrides are assumed non-empty: the source treats an empty string like
an absent value for the truthiness-tested fields; keytab facts are stated per
source combination, the extras value being materialized to a path.) -/
theorem connection_resolution_precedence :
    ∀ (args : HookArgs) (c : Conn) (dec : String → Option Bytes) (fs : FS)
      (u : String) (oc : WriteOutcome),
    (∀ s, args.yarnQueue = some s → s ≠ "") →
    (∀ s, args.deployMode = some s → s ≠ "") →
    (∀ s, args.sparkBinary = some s → s ≠ "") →
    (args.sparkBinary = none →
      ALLOWED_SPARK_BINARIES.contains
        (c.extra.sparkBinary.getD DEFAULT_SPARK_BINARY) = true) →
    c.extra.sparkHome = none →
    ∃ (d : ConnData) (fs2 : FS),
      resolve_connection args (some c) dec fs u oc = (.ok d, fs2)
      ∧ d.queue = specPick args.yarnQueue c.extra.queue none
      ∧ d.deployMode = specPick args.deployMode c.extra.deployMode none
      ∧ some d.sparkBinary
          = specPick args.sparkBinary c.extra.sparkBinary (some DEFAULT_SPARK_BINARY)
      ∧ d.principal = specPick args.principal c.extra.principal none
      ∧ (∀ v, args.keytab = some v → d.keytab = some v)
      ∧ (args.keytab = none → c.extra.keytab = none → d.keytab = none)
      ∧ (∀ b64 kp fs3, args.keytab = none → c.extra.keytab = some b64 →
          create_keytab_path_from_base64_keytab dec fs b64
            (specPick args.principal c.extra.principal none) u oc = (.ok kp, fs3) →
          d.keytab = some kp) := by
  intro args c dec fs u oc hq hd hb hbv hh
  obtain ⟨sb, hsb, hsbs⟩ :=
    resolveSparkBinary_spec args.sparkBinary c.extra.sparkBinary hb hbv
  have hsh : truthyStr c.extra.sparkHome = false := by rw [hh]; rfl
  refine ⟨applyNamespaceConf args.conf
      { master := resolveMaster c
        queue := resolveQueue args.yarnQueue c.extra.queue
        deployMode := resolveDeployMode args.deployMode c.extra.deployMode
        sparkBinary := sb
        namespaceC := c.extra.namespaceEx
        principal := resolvePrincipal args.principal c.extra.principal
        keytab := (resolveKeytab dec fs args.keytab c.extra.keytab
          (resolvePrincipal args.principal c.extra.principal) u oc).1 },
    (resolveKeytab dec fs args.keytab c.extra.keytab
      (resolvePrincipal args.principal c.extra.principal) u oc).2,
    ?_, ?_, ?_, ?_, ?_, ?_, ?_, ?_⟩
  · simp only [resolve_connection, hsb, hsh, Bool.false_eq_true, if_false]
  · rw [applyNamespaceConf_queue]
    exact resolveQueue_spec _ _ hq
  · rw [applyNamespaceConf_deployMode]
    exact resolveDeployMode_spec _ _ hd
  · rw [applyNamespaceConf_sparkBinary]
    exact hsbs
  · rw [applyNamespaceConf_principal]
    exact resolvePrincipal_spec _ _
  · intro v hv
    rw [applyNamespaceConf_keytab]
    simp [resolveKeytab, hv]
  · intro h1 h2
    rw [applyNamespaceConf_keytab]
    simp [resolveKeytab, h1, h2]
  · intro b64 kp fs3 h1 h2 hcr
    rw [applyNamespaceConf_keytab]
    rw [resolvePrincipal_spec] at *
    simp [resolveKeytab, h1, h2, hcr]

/-- Concrete inputs for the precedence witness: every source populated. -/
def argsAllSet : HookArgs :=
  { sparkBinary := some "spark2-submit", yarnQueue := some "q1"
    deployMode := some "cluster", principal := some "alice"
    keytab := some "/keytabs/airflow.keytab", conf := [] }

def connAllSet : Conn :=
  { host := "yarn", port := none
    extra := { queue := some "q2", deployMode := some "client"
               sparkBinary := some "spark3-submit", sparkHome := none
               namespaceEx := none, principal := some "bob"
               keytab := some "QUJD" } }

theorem connection_resolution_precedence_witness :
    ∃ (d : ConnData) (fs2 : FS),
      resolve_connection argsAllSet (some connAllSet) (fun _ => some [1]) [] "u" .ok
        = (.ok d, fs2)
      ∧ d.queue = some "q1" ∧ d.deployMode = some "cluster"
      ∧ some d.sparkBinary = some "spark2-submit" ∧ d.principal = some "alice"
      ∧ d.keytab = some "/keytabs/airflow.keytab" := by
  obtain ⟨d, fs2, h0, h1, h2, h3, h4, h5, _, _⟩ :=
    connection_resolution_precedence argsAllSet connAllSet (fun _ => some [1]) [] "u" .ok
      (by intro s hs; injection hs with h; subst h; decide)
      (by intro s hs; injection hs with h; subst h; decide)
      (by intro s hs; injection hs with h; subst h; decide)
      (by intro h; cases h)
      rfl
  exact ⟨d, fs2, h0, h1, h2, h3, h4, h5 _ rfl⟩

/-! ## Claim C8 -/

/-- C8 counterexample: an explicitly supplied spark binary outside
ALLOWED_SPARK_BINARIES is accepted: resolution succeeds and carries the
disallowed binary instead of failing with a ConfigurationError. -/
theorem spark_binary_validation_counterexample :
    (resolve_connection { sparkBinary := some "spark-submit-custom" }
        (some { host := "spark://h" }) (fun _ => none) [] "u" .ok).1
      = .ok { master := "spark://h", queue := none, deployMode := none,
              sparkBinary := "spark-submit-custom", namespaceC := none,
              principal := none, keytab := none }
    ∧ ALLOWED_SPARK_BINARIES.contains "spark-submit-custom" = false :=
  ⟨rfl, rfl⟩

/-- C8 amended: only a spark binary taken from the connection extras is
validated against the allowed set (yielding the ConfigurationError), while an
explicitly caller-supplied (non-empty) binary bypasses validation: resolution
never fails the allowed-set check for it. -/
theorem spark_binary_validation_extras_only :
    (∀ (args : HookArgs) (c : Conn) (dec : String → Option Bytes) (fs : FS)
       (u : String) (oc : WriteOutcome) (b : String),
       args.sparkBinary = none → c.extra.sparkBinary = some b →
       ALLOWED_SPARK_BINARIES.contains b = false →
       (resolve_connection args (some c) dec fs u oc).1 = .error .binaryNotAllowed)
    ∧ (∀ (args : HookArgs) (c : Conn) (dec : String → Option Bytes) (fs : FS)
        (u : String) (oc : WriteOutcome) (s : String),
        args.sparkBinary = some s → s ≠ "" →
        (resolve_connection args (some c) dec fs u oc).1
          ≠ .error .binaryNotAllowed) := by
  constructor
  · intro args c dec fs u oc b ha hext hcont
    have hcm : b ∉ ALLOWED_SPARK_BINARIES := by simpa using hcont
    have hbin : resolveSparkBinary args.sparkBinary c.extra.sparkBinary
        = .error .binaryNotAllowed := by
      simp [resolveSparkBinary, ha, hext, truthyStr, hcm]
    simp only [resolve_connection, hbin]
  · intro args c dec fs u oc s ha hs
    have hes : (s == "") = false := by simpa using hs
    have hbin : resolveSparkBinary args.sparkBinary c.extra.sparkBinary = .ok s := by
      simp [resolveSparkBinary, ha, truthyStr, hes]
    simp only [resolve_connection, hbin]
    split
    · simp
    · simp

theorem spark_binary_validation_extras_only_witness :
    (resolve_connection {}
        (some { host := "yarn", extra := { sparkBinary := some "my-spark" } })
        (fun _ => none) [] "u" .ok).1 = .error .binaryNotAllowed
    ∧ (resolve_connection { sparkBinary := some "spark-submit-custom" }
        (some { host := "yarn" }) (fun _ => none) [] "u" .ok).1
        ≠ .error .binaryNotAllowed :=
  ⟨spark_binary_validation_extras_only.1 _ _ _ _ _ _ "my-spark" rfl rfl (by decide),
   spark_binary_validation_extras_only.2 _ _ _ _ _ _ "spark-submit-custom" rfl
     (by decide)⟩

/-! ## Cancellation (on_kill, lines 736-811) -/

/-- The hook state read by on_kill. -/
structure KillState where
  shouldTrack : Bool := false
  driverId : Option String := none
  submitAlive : Bool := false          -- self._submit_sp truthy and poll() is None
  yarnApplicationId : Option String := none
  kubernetesDriverPod : Option String := none
  sparkBinary : String := DEFAULT_SPARK_BINARY
  master : String := "yarn"
  keytab : Option String := none
  principal : Option String := none
  namespaceC : Option String := none
deriving Repr, DecidableEq

/-- Environment outcomes of the teardown steps: exit codes of the two kill
subprocesses, the result of the credential renewal (exit_on_fail=False, so it
returns a code instead of raising), the configured ccache and the result of
the Kubernetes delete call (error = ApiException message). -/
structure KillOutcomes where
  driverKillRc : Int := 0
  yarnKillRc : Int := 0
  renewalRc : Int := 0
  ccache : String := ""
  k8sDelete : Except String String := .ok ""

/-- _build_spark_driver_kill_command. -/
def build_spark_driver_kill_command (st : KillState) : List String :=
  [st.sparkBinary] ++ ["--master", st.master]
    ++ (if truthyStr st.driverId then ["--kill", st.driverId.getD ""] else [])

/-- The logged teardown actions taken by on_kill. -/
inductive KillAction
  | driverKill (cmd : List String) (rc : Int)
  | processKill
  | renewAttempt (rc : Int)
  | yarnKill (cmd : List String) (rc : Int)
  | k8sPodDeleted (resp : String)
  | k8sDeleteFailedLogged (err : String)
deriving Repr, DecidableEq

/-- Exceptions escaping on_kill; it has no raise path of its own. -/
inductive KillErr
deriving Repr, DecidableEq

/-- on_kill: kill the driver when tracking, then — when the submit process is
still alive — kill it, kill a discovered YARN application (after a renewal
attempt whose failure is ignored) and delete a discovered Kubernetes driver
pod, the ApiException of the delete call being caught and logged. -/
def on_kill (st : KillState) (oc : KillOutcomes) : Except KillErr (List KillAction) :=
  let acts1 : List KillAction :=
    if st.shouldTrack && truthyStr st.driverId then
      [.driverKill (build_spark_driver_kill_command st) oc.driverKillRc]
    else []
  let acts2 : List KillAction :=
    if st.submitAlive then
      [KillAction.processKill]
      ++ (if truthyStr st.yarnApplicationId then
            (if st.keytab ≠ none ∧ st.principal ≠ none then
              [.renewAttempt oc.renewalRc]
            else [])
            ++ [.yarnKill ["yarn", "application", "-kill",
                  st.yarnApplicationId.getD ""] oc.yarnKillRc]
          else [])
      ++ (if truthyStr st.kubernetesDriverPod then
            match oc.k8sDelete with
            | .ok resp => [.k8sPodDeleted resp]
            | .error e => [.k8sDeleteFailedLogged e]
          else [])
    else []
  .ok (acts1 ++ acts2)

/-! ## Claim C9 -/

/-- C9: cancellation never raises: for every hook state and every combination
of teardown outcomes, on_kill returns normally; a failing Kubernetes delete
call is swallowed and logged; and a failing credential renewal does not block
the YARN kill attempt. -/
theorem on_kill_never_raises :
    ∀ (st : KillState) (oc : KillOutcomes),
    (on_kill st oc).isOk = true
    ∧ (∀ e, oc.k8sDelete = .error e → st.submitAlive = true →
        truthyStr st.kubernetesDriverPod = true →
        ∃ acts, on_kill st oc = .ok acts
          ∧ KillAction.k8sDeleteFailedLogged e ∈ acts)
    ∧ (st.submitAlive = true → truthyStr st.yarnApplicationId = true →
        ∃ acts, on_kill st oc = .ok acts
          ∧ KillAction.yarnKill ["yarn", "application", "-kill",
              st.yarnApplicationId.getD ""] oc.yarnKillRc ∈ acts) := by
  intro st oc
  refine ⟨rfl, ?_, ?_⟩
  · intro e he hal hpod
    refine ⟨_, rfl, ?_⟩
    simp only [on_kill, hal, if_true, hpod, he]
    simp [List.mem_append]
  · intro hal hyarn
    refine ⟨_, rfl, ?_⟩
    simp only [on_kill, hal, if_true, hyarn]
    simp [List.mem_append]

/-- Concrete state for the cancellation witness. -/
def killStateW : KillState :=
  { submitAlive := true, kubernetesDriverPod := some "spark-pi-abc-driver"
    yarnApplicationId := some "application_123" }

def killOutcomesW : KillOutcomes := { k8sDelete := .error "boom", renewalRc := 1 }

theorem on_kill_never_raises_witness :
    (on_kill killStateW killOutcomesW).isOk = true
    ∧ ∃ acts, on_kill killStateW killOutcomesW = .ok acts
        ∧ KillAction.k8sDeleteFailedLogged "boom" ∈ acts := by
  obtain ⟨h1, h2, _⟩ := on_kill_never_raises killStateW killOutcomesW
  exact ⟨h1, h2 "boom" rfl rfl (by decide)⟩

/-! ## Command masking (_mask_cmd, lines 360-382)

The fixed pattern
  (\S*?(?:secret|password)\S*?(?:=|\s+)(['"]?))(?:(?!\2\s).)*(\2)
with re.IGNORECASE, substituted by \1******\3 over " ".join(connection_cmd),
is translated into a deterministic scanner implementing the leftmost-match,
lazy-prefix, alternation-order, greedy-with-backreference-backtracking
semantics of re.sub for this concrete pattern. -/

def matchKeywordCI (kw : List Char) (cs : List Char) : Bool :=
  match kw, cs with
  | [], _ => true
  | _ :: _, [] => false
  | k :: kt, c :: ct => (c.toLower == k) && matchKeywordCI kt ct

/-- Length of the keyword (secret|password) matched at the head, if any. -/
def keywordLen (cs : List Char) : Option Nat :=
  if matchKeywordCI "secret".data cs then some 6
  else if matchKeywordCI "password".data cs then some 8
  else none

/-- Lazy \S*? before the keyword: scan the non-space run for the first keyword. -/
def findKw : List Char → Option (List Char × List Char × List Char)
  | [] => none
  | c :: t =>
    match keywordLen (c :: t) with
    | some n => some ([], (c :: t).take n, (c :: t).drop n)
    | none =>
      if pyIsSpace c then none
      else
        match findKw t with
        | some (pre, kw, rest) => some (c :: pre, kw, rest)
        | none => none

/-- Lazy \S*? then (=|\s+): non-space characters up to the first '=' (one
character) or whitespace (greedy run). -/
def sepScan : List Char → Option (List Char × List Char × List Char)
  | [] => none
  | c :: t =>
    if c == '=' then some ([], [c], t)
    else if pyIsSpace c then
      let sp := (c :: t).takeWhile pyIsSpace
      some ([], sp, (c :: t).drop sp.length)
    else
      match sepScan t with
      | some (mid, sep, rest) => some (c :: mid, sep, rest)
      | none => none

/-- Greedy (?:(?!q\s).)* : consume while not newline and not quote-before-space;
returns (consumed, blocked-rest). -/
def valQ (q : Char) : List Char → (List Char × List Char)
  | [] => ([], [])
  | [c] => if c == '\n' then ([], [c]) else ([c], [])
  | c :: d :: t =>
    if c == '\n' || (c == q && pyIsSpace d) then ([], c :: d :: t)
    else
      let r := valQ q (d :: t)
      (c :: r.1, r.2)

/-- Split around the last occurrence of q. -/
def splitAtLastQ (q : Char) : List Char → Option (List Char × List Char)
  | [] => none
  | c :: t =>
    match splitAtLastQ q t with
    | some (v, tail) => some (c :: v, tail)
    | none => if c == q then some ([], t) else none

/-- The quoted branch: value then backreference close quote, backtracking from
the longest feasible value.  Returns (value, rest-after-close) when a close
quote exists. -/
def tryQuoted (q : Char) (afterQuote : List Char) : Option (List Char × List Char) :=
  let vb := valQ q afterQuote
  match vb.2 with
  | b :: brest =>
    if b == q then some (vb.1, brest)
    else
      match splitAtLastQ q vb.1 with
      | some (v, tail) => some (v, tail ++ vb.2)
      | none => none
  | [] =>
    match splitAtLastQ q vb.1 with
    | some (v, tail) => some (v, tail)
    | none => none

/-- One match attempt of the masking pattern anchored at the current position:
returns (group 1, group 3, rest after the match). -/
def tryMatchAt (cs : List Char) : Option (List Char × List Char × List Char) :=
  match findKw cs with
  | none => none
  | some (pre, kw, r1) =>
    match sepScan r1 with
    | none => none
    | some (mid, sep, r2) =>
      match r2 with
      | q :: r3 =>
        if q == '\'' || q == '"' then
          match tryQuoted q r3 with
          | some (_, rest) => some (pre ++ kw ++ mid ++ sep ++ [q], [q], rest)
          | none =>
            let v := (q :: r3).takeWhile (fun c => !pyIsSpace c)
            some (pre ++ kw ++ mid ++ sep, [], (q :: r3).drop v.length)
        else
          let v := (q :: r3).takeWhile (fun c => !pyIsSpace c)
          some (pre ++ kw ++ mid ++ sep, [], (q :: r3).drop v.length)
      | [] => some (pre ++ kw ++ mid ++ sep, [], [])

/-- re.sub scanning: try a match at each position, left to right; on a match
emit group1 ++ "******" ++ group3 and resume after the match. -/
def maskScan : Nat → List Char → List Char
  | 0, cs => cs
  | fuel + 1, cs =>
    match tryMatchAt cs with
    | some (g1, close, rest) => g1 ++ "******".data ++ close ++ maskScan fuel rest
    | none =>
      match cs with
      | [] => []
      | c :: t => c :: maskScan fuel t

def maskSub (cs : List Char) : List Char := maskScan cs.length cs

/-- Python " ".join over an iterable of character lists. -/
def pyJoinChars (sep : List Char) : List (List Char) → List Char
  | [] => []
  | [x] => x
  | x :: y :: t => x ++ sep ++ pyJoinChars sep (y :: t)

/-- _mask_cmd(connection_cmd: str | list[str]) -> str.  " ".join iterates a
list over its items but a string over its characters. -/
def mask_cmd : List String ⊕ String → String
  | .inl tokens => String.mk (maskSub (pyJoinChars " ".data (tokens.map String.data)))
  | .inr s => String.mk (maskSub (pyJoinChars " ".data (s.data.map (fun c => [c]))))

/-! ## Command building (_build_spark_submit_command, lines 384-476) -/

/-- Python truthiness of an optional dict (None and the empty dict are falsy). -/
def truthyDict : Option (List (String × String)) → Bool
  | none => false
  | some l => !l.isEmpty

/-- Python truthiness of an optional list. -/
def truthyList : Option (List String) → Bool
  | none => false
  | some l => !l.isEmpty

/-- An optional-flag pair emitted only when the value is truthy. -/
def optTok (flag : String) (v : Option String) : List String :=
  if truthyStr v then [flag, v.getD ""] else []

/-- An optional integer flag pair (emitted via str(value)). -/
def optTokNat (flag : String) (v : Option Nat) : List String :=
  if truthyNat v then [flag, toString (v.getD 0)] else []

inductive BuildErr
  | envVarsStandaloneCluster  -- env_vars unsupported in standalone-cluster mode
  | krb5ccnameMissing         -- KRB5CCNAME env var required but missing
deriving Repr, DecidableEq

/-- The hook fields read by _build_spark_submit_command. -/
structure BuildArgs where
  conf : List (String × String) := []
  envVars : Option (List (String × String)) := none
  isKubernetes : Bool := false
  isYarn : Bool := false
  connection : ConnData
  propertiesFile : Option String := none
  files : Option String := none
  pyFiles : Option String := none
  archives : Option String := none
  driverClassPath : Option String := none
  jars : Option String := none
  packages : Option String := none
  excludePackages : Option String := none
  repositories : Option String := none
  numExecutors : Option Nat := none
  totalExecutorCores : Option Nat := none
  executorCores : Option Nat := none
  executorMemory : Option String := none
  driverMemory : Option String := none
  useKrb5ccache : Bool := false
  krb5ccnameSet : Bool := false    -- os.getenv("KRB5CCNAME") is truthy
  proxyUser : Option String := none
  name : String := "default-name"
  javaClass : Option String := none
  verbose : Bool := false
  applicationArgs : Option (List String) := none

/-- The env-var injection step: cluster-manager conf templates for yarn/k8s
(setting self._env only for yarn), direct process environment for non-cluster
deploy modes, and a hard error for standalone cluster mode. -/
def envVarsStep (a : BuildArgs) :
    Except BuildErr (List String × Option (List (String × String))) :=
  if truthyDict a.envVars && (a.isKubernetes || a.isYarn) then
    if a.isYarn then
      .ok ((a.envVars.getD []).flatMap
            (fun kv => ["--conf", "spark.yarn.appMasterEnv." ++ kv.1 ++ "=" ++ kv.2]),
          some (a.envVars.getD []))
    else
      .ok ((a.envVars.getD []).flatMap
            (fun kv => ["--conf", "spark.kubernetes.driverEnv." ++ kv.1 ++ "=" ++ kv.2]),
          none)
  else if truthyDict a.envVars && !(a.connection.deployMode == some "cluster") then
    .ok ([], some (a.envVars.getD []))
  else if truthyDict a.envVars && (a.connection.deployMode == some "cluster") then
    .error .envVarsStandaloneCluster
  else
    .ok ([], none)

/-- The ticket-cache step: requires the KRB5CCNAME environment variable. -/
def krb5Step (a : BuildArgs) : Except BuildErr (List String) :=
  if a.useKrb5ccache then
    if !a.krb5ccnameSet then .error .krb5ccnameMissing
    else .ok ["--conf", "spark.kerberos.renewal.credentials=ccache"]
  else .ok []

/-- _build_spark_submit_command: the token sequence handed to Popen, plus the
process environment to inject (self._env). -/
def build_spark_submit_command (a : BuildArgs) (application : String) :
    Except BuildErr (List String × Option (List (String × String))) :=
  match envVarsStep a with
  | .error e => .error e
  | .ok (envTokens, env) =>
    match krb5Step a with
    | .error e => .error e
    | .ok krbTokens =>
      .ok ([a.connection.sparkBinary]
        ++ ["--master", a.connection.master]
        ++ a.conf.flatMap (fun kv => ["--conf", kv.1 ++ "=" ++ kv.2])
        ++ envTokens
        ++ (if a.isKubernetes && truthyStr a.connection.namespaceC then
              ["--conf", "spark.kubernetes.namespace="
                ++ a.connection.namespaceC.getD ""]
            else [])
        ++ optTok "--properties-file" a.propertiesFile
        ++ optTok "--files" a.files
        ++ optTok "--py-files" a.pyFiles
        ++ optTok "--archives" a.archives
        ++ optTok "--driver-class-path" a.driverClassPath
        ++ optTok "--jars" a.jars
        ++ optTok "--packages" a.packages
        ++ optTok "--exclude-packages" a.excludePackages
        ++ optTok "--repositories" a.repositories
        ++ optTokNat "--num-executors" a.numExecutors
        ++ optTokNat "--total-executor-cores" a.totalExecutorCores
        ++ optTokNat "--executor-cores" a.executorCores
        ++ optTok "--executor-memory" a.executorMemory
        ++ optTok "--driver-memory" a.driverMemory
        ++ optTok "--keytab" a.connection.keytab
        ++ optTok "--principal" a.connection.principal
        ++ krbTokens
        ++ optTok "--proxy-user" a.proxyUser
        ++ (if !(a.name == "") then ["--name", a.name] else [])
        ++ optTok "--class" a.javaClass
        ++ (if a.verbose then ["--verbose"] else [])
        ++ optTok "--queue" a.connection.queue
        ++ optTok "--deploy-mode" a.connection.deployMode
        ++ [application]
        ++ (if truthyList a.applicationArgs then a.applicationArgs.getD [] else []),
      env)

/-- The start of submit() (lines 539-553): the literal argument vector handed
to subprocess.Popen and the displayed (masked) form that is only logged. -/
def submitPopen (a : BuildArgs) (application : String) :
    Except BuildErr (List String × String) :=
  match build_spark_submit_command a application with
  | .error e => .error e
  | .ok (cmd, _env) => .ok (cmd, mask_cmd (.inl cmd))

/-! ## Claim C5 -/

/-- C5 counterexample: masking is not idempotent on the displayed command
string.  _mask_cmd joins its argument with " ", and joining a string iterates
its characters, so re-masking the already-masked display string interleaves
spaces between all its characters instead of returning it unchanged. -/
theorem mask_cmd_not_idempotent :
    mask_cmd (.inr (mask_cmd (.inl ["--conf", "HivePassword=abc123"])))
      ≠ mask_cmd (.inl ["--conf", "HivePassword=abc123"]) := by decide

/-- C5 amended: the executed command is always the unmasked builder output —
masking only produces the separately logged display string — and the claim
example masks as stated; but masking an already-masked command string does not
yield the same string: because " ".join iterates a string character by
character, it yields the character-interspersed form shown. -/
theorem mask_cmd_display_only :
    (∀ (a : BuildArgs) (application : String) (cmd : List String)
       (env : Option (List (String × String))),
       build_spark_submit_command a application = .ok (cmd, env) →
       submitPopen a application = .ok (cmd, mask_cmd (.inl cmd)))
    ∧ mask_cmd (.inl ["--conf", "HivePassword=abc123"])
        = "--conf HivePassword=******"
    ∧ mask_cmd (.inr "--conf HivePassword=******")
        = "- - c o n f   H i v e P a s s w o r d = * * * * * *" := by
  refine ⟨?_, by rfl, by rfl⟩
  intro a application cmd env h
  simp [submitPopen, h]

theorem mask_cmd_display_only_witness :
    submitPopen
      { connection := { master := "yarn", queue := none, deployMode := none,
                        sparkBinary := "spark-submit", namespaceC := none,
                        principal := none, keytab := none } } "app.py"
      = .ok (["spark-submit", "--master", "yarn", "--name", "default-name",
              "app.py"],
             mask_cmd (.inl ["spark-submit", "--master", "yarn", "--name",
               "default-name", "app.py"])) :=
  mask_cmd_display_only.1
    { connection := { master := "yarn", queue := none, deployMode := none,
                      sparkBinary := "spark-submit", namespaceC := none,
                      principal := none, keytab := none } } "app.py"
    ["spark-submit", "--master", "yarn", "--name", "default-name", "app.py"]
    none rfl
